import Mathlib

/-!
Shallow embedding of `src/frontend/rust-lib/flowy-document/src/manager.rs`
(the AppFlowy client-side document session manager) in Lean 4.

The manager owns two concurrent registries keyed by document id:
`DocumentEditorHandlers` (the session registry, `doc_id → ClientDocumentEditor`)
and `ws_data_receivers` (the receiver registry, `doc_id → DocumentWSReceiver`).
We model both as association lists inside a `MgrState`, model each `Arc`
session by a numeric identity (`Editor.eid`, allocated from `MgrState.nextId`),
and record side effects (tracing logs, `editor.stop()`, receiver invocation,
`RevisionManager::reset_object`) as an event trace in `MgrState.events`.

External collaborators (the `DocumentUser` trait, the cloud service's
`read_document`, the protobuf parser, the editor's behaviour and the
receiver's behaviour) are supplied by an `Env` of functions, since their code
is outside the slice; where a claim depends on their contract the definition
is modelled from the spec and says so in its doc comment.  The async Rust
code is sequentialized: every operation is a function from `MgrState` to a
result paired with the new `MgrState`.
-/

namespace FlowyDoc

/-- Errors of the `FlowyError` taxonomy; only `record_not_found` needs to be
distinguished structurally (for `fetch_object`), every other error is carried
as an opaque message. -/
inductive FlowyError where
  | recordNotFound (ctx : String)
  | other (msg : String)
  deriving Repr, DecidableEq

/-- Model of an `Arc<ClientDocumentEditor>`: a session identity (`eid`, unique
per construction) together with the editor's current document content
(`document_json`). -/
structure Editor where
  eid : Nat
  content : String
  deriving Repr, DecidableEq

/-- Observable side effects of the manager, recorded most recent first. -/
inductive Event where
  | logError (msg : String)
  | logWarn (msg : String)
  | editorStopped (eid : Nat)
  | receiverInvoked (eid : Nat)
  | resetObject (userId : String) (docId : String)
  deriving Repr, DecidableEq

/-- Parsed inbound envelope, `ServerRevisionWSData`: the routing key
`object_id` plus the message type tag. -/
structure WSData where
  object_id : String
  ty : Nat
  deriving Repr, DecidableEq

/-- The `DocumentDelta` value object: a document id and a delta (or
full-content) JSON string. -/
structure DocumentDelta where
  doc_id : String
  delta_json : String
  deriving Repr, DecidableEq

/-- The cloud service's reply to `read_document`: the remote document's id,
revision bounds and full text. -/
structure DocumentInfo where
  doc_id : String
  base_rev_id : Int
  rev_id : Int
  text : String
  deriving Repr, DecidableEq

/-- A `Revision` as built by `Revision::new(object_id, base_rev_id, rev_id,
delta_data, user_id, md5)`. -/
structure Revision where
  object_id : String
  base_rev_id : Int
  rev_id : Int
  delta_data : String
  user_id : String
  md5 : String
  deriving Repr, DecidableEq

/-- A `RevisionManager` as far as this slice observes it: the `user_id` and
`object_id` it was constructed with by `RevisionManager::new`. -/
structure RevisionManager where
  user_id : String
  object_id : String
  deriving Repr, DecidableEq

/-- Behaviour of the collaborators injected into `FlowyDocumentManager::new`.
`user_id`, `token`, `db_pool` model the `DocumentUser` trait (each may fail);
`readDocument` models `DocumentCloudService::read_document`; `parseWSData`
models the protobuf `Bytes → ServerRevisionWSData` conversion; `md5` the
checksum function.  `editorInit` is modelled from the spec: the outcome of
`ClientDocumentEditor::new` (which may fail, e.g. while seeding history),
returning the freshly opened document's content.  `recvData` is modelled from
the spec: the receiver capability's `receive_ws_data`, keyed by the owning
session's identity.  `composeBehavior` is modelled from the spec: the OT
engine behind `compose_local_delta` on a non-empty delta.  `resetObject`
models `RevisionManager::reset_object`. -/
structure Env where
  user_id : Except FlowyError String
  token : Except FlowyError String
  db_pool : Except FlowyError Unit
  readDocument : String → String → Except FlowyError (Option DocumentInfo)
  parseWSData : List Nat → Option WSData
  md5 : String → String
  editorInit : String → Except FlowyError String
  recvData : Nat → WSData → Except FlowyError Unit
  composeBehavior : String → String → Except FlowyError String
  resetObject : String → String → List Revision → Except FlowyError Unit

/-- State of one `FlowyDocumentManager`: the session registry
(`document_handlers.inner`), the receiver registry (`ws_data_receivers`,
holding the owning session's identity), the next fresh session identity, and
the trace of observable side effects. -/
structure MgrState where
  handlers : List (String × Editor)
  receivers : List (String × Nat)
  nextId : Nat
  events : List Event
  deriving Repr, DecidableEq

/-- Association-list lookup, the model of `DashMap::get`. -/
def lookupKey {α : Type} : List (String × α) → String → Option α
  | [], _ => none
  | (k, v) :: rest, key => if k = key then some v else lookupKey rest key

/-- Association-list removal, the model of `DashMap::remove`. -/
def removeKey {α : Type} : List (String × α) → String → List (String × α)
  | [], _ => []
  | (k, v) :: rest, key =>
    if k = key then removeKey rest key else (k, v) :: removeKey rest key

/-- Association-list insert-or-replace, the model of `DashMap::insert`. -/
def insertKey {α : Type} (l : List (String × α)) (key : String) (v : α) : List (String × α) :=
  (key, v) :: removeKey l key

/-- Record one observable side effect. -/
def recordEvent (s : MgrState) (e : Event) : MgrState :=
  { s with events := e :: s.events }

/-- Model of `tracing::error!`. -/
def logError (s : MgrState) (msg : String) : MgrState :=
  recordEvent s (Event.logError msg)

/-- Model of `log::warn!`. -/
def logWarn (s : MgrState) (msg : String) : MgrState :=
  recordEvent s (Event.logWarn msg)

/-- Message text carried by a `FlowyError` when it is logged. -/
def errString : FlowyError → String
  | FlowyError.recordNotFound ctx => ctx
  | FlowyError.other msg => msg

namespace DocumentEditorHandlers

/-- `DocumentEditorHandlers::contains`: `self.inner.get(doc_id).is_some()`. -/
def contains (s : MgrState) (doc_id : String) : Bool :=
  (lookupKey s.handlers doc_id).isSome

/-- `DocumentEditorHandlers::get`: returns `None` when `contains` is false,
otherwise the cached editor. -/
def get (s : MgrState) (doc_id : String) : Option Editor :=
  if contains s doc_id = false then none
  else lookupKey s.handlers doc_id

/-- `DocumentEditorHandlers::insert`: warns when the key is already cached,
then unconditionally inserts (replacing any previous entry). -/
def insert (s : MgrState) (doc_id : String) (doc : Editor) : MgrState :=
  let s1 := if contains s doc_id
    then logWarn s ("Doc:" ++ doc_id ++ " already exists in cache")
    else s
  { s1 with handlers := insertKey s1.handlers doc_id doc }

/-- `DocumentEditorHandlers::remove`: calls `editor.stop()` on the cached
editor when present, then removes the entry. -/
def remove (s : MgrState) (id : String) : MgrState :=
  let s1 := match get s id with
    | some editor => recordEvent s (Event.editorStopped editor.eid)
    | none => s
  { s1 with handlers := removeKey s1.handlers id }

end DocumentEditorHandlers

/-- `FlowyDocumentManager::make_rev_manager`: reads `user_id` from the
`DocumentUser` collaborator, builds the revision cache, and constructs a fresh
`RevisionManager` for `doc_id`. -/
def make_rev_manager (env : Env) (doc_id : String) : Except FlowyError RevisionManager :=
  match env.user_id with
  | Except.error e => Except.error e
  | Except.ok uid => Except.ok { user_id := uid, object_id := doc_id }

/-- `FlowyDocumentManager::make_editor`: obtains the token, builds a revision
manager, constructs the editor (`ClientDocumentEditor::new`, whose outcome is
`env.editorInit`), then registers the receiver in `ws_data_receivers` and the
editor in `document_handlers` before returning it.  Any failure returns the
error with the state untouched. -/
def make_editor (env : Env) (s : MgrState) (doc_id : String) :
    Except FlowyError Editor × MgrState :=
  match env.token with
  | Except.error e => (Except.error e, s)
  | Except.ok _ =>
    match make_rev_manager env doc_id with
    | Except.error e => (Except.error e, s)
    | Except.ok _ =>
      match env.editorInit doc_id with
      | Except.error e => (Except.error e, s)
      | Except.ok c =>
        let doc_editor : Editor := { eid := s.nextId, content := c }
        let s1 := { s with nextId := s.nextId + 1 }
        let s2 := { s1 with receivers := insertKey s1.receivers doc_id doc_editor.eid }
        let s3 := DocumentEditorHandlers.insert s2 doc_id doc_editor
        (Except.ok doc_editor, s3)

/-- `FlowyDocumentManager::get_editor`: returns the cached editor on a hit;
on a miss obtains the db pool and builds a new editor via `make_editor`. -/
def get_editor (env : Env) (s : MgrState) (doc_id : String) :
    Except FlowyError Editor × MgrState :=
  match DocumentEditorHandlers.get s doc_id with
  | none =>
    match env.db_pool with
    | Except.error e => (Except.error e, s)
    | Except.ok _ => make_editor env s doc_id
  | some editor => (Except.ok editor, s)

/-- `FlowyDocumentManager::open_document`: delegates to `get_editor`. -/
def open_document (env : Env) (s : MgrState) (doc_id : String) :
    Except FlowyError Editor × MgrState :=
  get_editor env s doc_id

/-- `FlowyDocumentManager::close_document`: removes the session from
`document_handlers` (stopping it when present) and the receiver from
`ws_data_receivers`, always returning `Ok(())`. -/
def close_document (s : MgrState) (doc_id : String) :
    Except FlowyError Unit × MgrState :=
  let s1 := DocumentEditorHandlers.remove s doc_id
  let s2 := { s1 with receivers := removeKey s1.receivers doc_id }
  (Except.ok (), s2)

/-- `FlowyDocumentManager::delete`: same body as `close_document`. -/
def delete (s : MgrState) (doc_id : String) :
    Except FlowyError Unit × MgrState :=
  let s1 := DocumentEditorHandlers.remove s doc_id
  let s2 := { s1 with receivers := removeKey s1.receivers doc_id }
  (Except.ok (), s2)

/-- Modelled from the spec: the editor collaborator's
`compose_local_delta` followed by `document_json` read-back, as a content
transformer.  The OT engine itself is out of scope; the spec pins only that
composing the empty delta returns the content unchanged, so the empty delta
is the identity and every other delta is interpreted by the injected
`env.composeBehavior` (which may fail with a composition error). -/
def composeContent (env : Env) (content : String) (delta : String) :
    Except FlowyError String :=
  if delta = "" then Except.ok content
  else env.composeBehavior content delta

/-- Update the cached editor's content for `doc_id` (the effect of the shared
`Arc<ClientDocumentEditor>` having composed a delta). -/
def updateEditorContent (s : MgrState) (doc_id : String) (c : String) : MgrState :=
  let f : String × Editor → String × Editor :=
    fun p => if p.1 = doc_id then (p.1, { p.2 with content := c }) else p
  { s with handlers := s.handlers.map f }

/-- `FlowyDocumentManager::receive_local_delta`: opens (or reuses) the editor
for `delta.doc_id`, composes the delta, reads back the full document JSON and
returns it as a new `DocumentDelta`; any failure propagates. -/
def receive_local_delta (env : Env) (s : MgrState) (delta : DocumentDelta) :
    Except FlowyError DocumentDelta × MgrState :=
  match get_editor env s delta.doc_id with
  | (Except.error e, s1) => (Except.error e, s1)
  | (Except.ok editor, s1) =>
    match composeContent env editor.content delta.delta_json with
    | Except.error e => (Except.error e, s1)
    | Except.ok document_json =>
      (Except.ok { doc_id := delta.doc_id, delta_json := document_json },
       updateEditorContent s1 delta.doc_id document_json)

/-- `FlowyDocumentManager::reset_with_revisions`: obtains the db pool, builds
a fresh `RevisionManager` via `make_rev_manager` (never consulting the session
registry), and calls `reset_object` on it; any failure propagates. -/
def reset_with_revisions (env : Env) (s : MgrState) (doc_id : String)
    (revisions : List Revision) : Except FlowyError Unit × MgrState :=
  match env.db_pool with
  | Except.error e => (Except.error e, s)
  | Except.ok _ =>
    match make_rev_manager env doc_id with
    | Except.error e => (Except.error e, s)
    | Except.ok rev_manager =>
      let s1 := recordEvent s (Event.resetObject rev_manager.user_id doc_id)
      match env.resetObject rev_manager.user_id doc_id revisions with
      | Except.error e => (Except.error e, s1)
      | Except.ok _ => (Except.ok (), s1)

/-- `FlowyDocumentManager::receive_ws_data`: parses the raw bytes; on parse
failure logs and drops; on a missing receiver logs and drops; otherwise
invokes the receiver and logs (swallowing) any error it returns.  The return
type is `MgrState` alone because the Rust function returns `()`: no error can
propagate. -/
def receive_ws_data (env : Env) (s : MgrState) (data : List Nat) : MgrState :=
  match env.parseWSData data with
  | none => logError s "Document ws data parser failed"
  | some d =>
    match lookupKey s.receivers d.object_id with
    | none => logError s ("Cant find any source handler for " ++ d.object_id)
    | some rid =>
      let s1 := recordEvent s (Event.receiverInvoked rid)
      match env.recvData rid d with
      | Except.ok _ => s1
      | Except.error e => logError s1 (errString e)

/-- `DocumentRevisionCloudServiceImpl::fetch_object`: calls
`read_document(token, object_id)`; `None` becomes a `record_not_found` error,
`Some doc` becomes a single synthetic `Revision` wrapping the document's full
text, checksummed with md5 and authored by `user_id`. -/
def fetch_object (env : Env) (token : String) (user_id : String)
    (object_id : String) : Except FlowyError (List Revision) :=
  match env.readDocument token object_id with
  | Except.error e => Except.error e
  | Except.ok none =>
    Except.error (FlowyError.recordNotFound "Remote does not have this document")
  | Except.ok (some doc) =>
    Except.ok [{ object_id := doc.doc_id, base_rev_id := doc.base_rev_id,
                 rev_id := doc.rev_id, delta_data := doc.text,
                 user_id := user_id, md5 := env.md5 doc.text }]

/-! Registry lemmas shared by the claim theorems. -/

theorem lookupKey_removeKey_self {α : Type} (l : List (String × α)) (k : String) :
    lookupKey (removeKey l k) k = none := by
  induction l with
  | nil => rfl
  | cons p rest ih =>
    obtain ⟨k', v⟩ := p
    by_cases h : k' = k
    · simpa [removeKey, h] using ih
    · simpa [removeKey, lookupKey, h] using ih

theorem lookupKey_removeKey_ne {α : Type} (l : List (String × α)) (k key : String)
    (h : key ≠ k) : lookupKey (removeKey l k) key = lookupKey l key := by
  induction l with
  | nil => rfl
  | cons p rest ih =>
    obtain ⟨k', v⟩ := p
    by_cases hk : k' = k
    · subst hk
      have hne : ¬ (k' = key) := fun hh => h (hh.symm)
      simp [removeKey, lookupKey, hne]
      exact ih
    · simp only [removeKey, if_neg hk, lookupKey]
      by_cases hkey : k' = key
      · simp [hkey]
      · simp [hkey, ih]

theorem removeKey_eq_of_lookupKey_none {α : Type} (l : List (String × α)) (k : String)
    (h : lookupKey l k = none) : removeKey l k = l := by
  induction l with
  | nil => rfl
  | cons p rest ih =>
    obtain ⟨k', v⟩ := p
    by_cases hk : k' = k
    · simp [lookupKey, hk] at h
    · simp only [lookupKey, if_neg hk] at h
      simp [removeKey, hk, ih h]

theorem lookupKey_insertKey_self {α : Type} (l : List (String × α)) (k : String) (v : α) :
    lookupKey (insertKey l k v) k = some v := by
  simp [insertKey, lookupKey]

theorem lookupKey_insertKey_ne {α : Type} (l : List (String × α)) (k key : String) (v : α)
    (h : key ≠ k) : lookupKey (insertKey l k v) key = lookupKey l key := by
  have hne : ¬ (k = key) := fun hh => h (hh.symm)
  simp [insertKey, lookupKey, hne, lookupKey_removeKey_ne l k key h]

theorem handlers_get_eq (s : MgrState) (doc_id : String) :
    DocumentEditorHandlers.get s doc_id = lookupKey s.handlers doc_id := by
  unfold DocumentEditorHandlers.get DocumentEditorHandlers.contains
  cases h : lookupKey s.handlers doc_id <;> simp [h]

theorem handlers_insert_handlers (s : MgrState) (doc_id : String) (doc : Editor) :
    (DocumentEditorHandlers.insert s doc_id doc).handlers =
      insertKey s.handlers doc_id doc := by
  unfold DocumentEditorHandlers.insert
  split <;> rfl

theorem handlers_insert_receivers (s : MgrState) (doc_id : String) (doc : Editor) :
    (DocumentEditorHandlers.insert s doc_id doc).receivers = s.receivers := by
  unfold DocumentEditorHandlers.insert
  split <;> rfl

theorem close_document_eq_of_lookup_some (s : MgrState) (doc_id : String) (e : Editor)
    (h : lookupKey s.handlers doc_id = some e) :
    close_document s doc_id =
      (Except.ok (), { handlers := removeKey s.handlers doc_id,
                       receivers := removeKey s.receivers doc_id,
                       nextId := s.nextId,
                       events := Event.editorStopped e.eid :: s.events }) := by
  simp [close_document, DocumentEditorHandlers.remove, handlers_get_eq, h, recordEvent]

theorem close_document_eq_of_lookup_none (s : MgrState) (doc_id : String)
    (h : lookupKey s.handlers doc_id = none) :
    close_document s doc_id =
      (Except.ok (), { handlers := removeKey s.handlers doc_id,
                       receivers := removeKey s.receivers doc_id,
                       nextId := s.nextId,
                       events := s.events }) := by
  simp [close_document, DocumentEditorHandlers.remove, handlers_get_eq, h]

/-- C6: for every `doc_id`, `close` removes the entry for that `doc_id` from
both `SessionRegistry` (`document_handlers`) and `ReceiverRegistry`
(`ws_data_receivers`) when present, invoking the session shutdown hook
(`editor.stop()`) before its removal; when no session for `doc_id` exists it
is a no-op that returns success, never an error. -/
theorem close_document_spec (s : MgrState) (doc_id : String) :
    (close_document s doc_id).1 = Except.ok () ∧
    lookupKey (close_document s doc_id).2.handlers doc_id = none ∧
    lookupKey (close_document s doc_id).2.receivers doc_id = none ∧
    (∀ e : Editor, lookupKey s.handlers doc_id = some e →
       (close_document s doc_id).2.events = Event.editorStopped e.eid :: s.events) ∧
    (lookupKey s.handlers doc_id = none → lookupKey s.receivers doc_id = none →
       close_document s doc_id = (Except.ok (), s)) := by
  cases hg : lookupKey s.handlers doc_id with
  | some e =>
    rw [close_document_eq_of_lookup_some s doc_id e hg]
    refine ⟨rfl, ?_, ?_, ?_, ?_⟩
    · simpa using lookupKey_removeKey_self s.handlers doc_id
    · simpa using lookupKey_removeKey_self s.receivers doc_id
    · intro e' he'
      cases he'
      rfl
    · intro hnone
      exact Option.noConfusion hnone
  | none =>
    rw [close_document_eq_of_lookup_none s doc_id hg]
    refine ⟨rfl, ?_, ?_, ?_, ?_⟩
    · simpa using lookupKey_removeKey_self s.handlers doc_id
    · simpa using lookupKey_removeKey_self s.receivers doc_id
    · intro e' he'
      exact Option.noConfusion he'
    · intro _ hr
      rw [removeKey_eq_of_lookupKey_none s.handlers doc_id hg,
          removeKey_eq_of_lookupKey_none s.receivers doc_id hr]

/-- C7: for every `doc_id` and every manager state, `delete` has an effect
identical to `close_document` at this layer: the same resulting registry
state and the same result value. -/
theorem delete_eq_close_document (s : MgrState) (doc_id : String) :
    delete s doc_id = close_document s doc_id := rfl

/-- C2: `receive_ws_data` never propagates an error to its caller (its return
type carries no error at all); a parse failure, a missing receiver for the
parsed `object_id`, and a receiver-side error are each logged and the message
dropped, and in every case only the event trace changes — both registries are
left untouched. -/
theorem receive_ws_data_never_propagates (env : Env) (s : MgrState) (data : List Nat) :
    (receive_ws_data env s data).handlers = s.handlers ∧
    (receive_ws_data env s data).receivers = s.receivers ∧
    (env.parseWSData data = none →
      receive_ws_data env s data = logError s "Document ws data parser failed") ∧
    (∀ d : WSData, env.parseWSData data = some d →
      lookupKey s.receivers d.object_id = none →
      receive_ws_data env s data =
        logError s ("Cant find any source handler for " ++ d.object_id)) ∧
    (∀ (d : WSData) (rid : Nat) (e : FlowyError), env.parseWSData data = some d →
      lookupKey s.receivers d.object_id = some rid →
      env.recvData rid d = Except.error e →
      receive_ws_data env s data =
        logError (recordEvent s (Event.receiverInvoked rid)) (errString e)) ∧
    (∀ (d : WSData) (rid : Nat), env.parseWSData data = some d →
      lookupKey s.receivers d.object_id = some rid →
      env.recvData rid d = Except.ok () →
      receive_ws_data env s data = recordEvent s (Event.receiverInvoked rid)) := by
  refine ⟨?_, ?_, ?_, ?_, ?_, ?_⟩
  · unfold receive_ws_data
    cases hp : env.parseWSData data with
    | none => rfl
    | some d =>
      cases hl : lookupKey s.receivers d.object_id with
      | none => simp [hl, logError, recordEvent]
      | some rid =>
        cases hr : env.recvData rid d with
        | ok u => simp [hl, hr, recordEvent]
        | error e => simp [hl, hr, logError, recordEvent]
  · unfold receive_ws_data
    cases hp : env.parseWSData data with
    | none => rfl
    | some d =>
      cases hl : lookupKey s.receivers d.object_id with
      | none => simp [hl, logError, recordEvent]
      | some rid =>
        cases hr : env.recvData rid d with
        | ok u => simp [hl, hr, recordEvent]
        | error e => simp [hl, hr, logError, recordEvent]
  · intro hp
    simp [receive_ws_data, hp]
  · intro d hp hl
    simp [receive_ws_data, hp, hl]
  · intro d rid e hp hl hr
    simp [receive_ws_data, hp, hl, hr]
  · intro d rid hp hl hr
    simp [receive_ws_data, hp, hl, hr]

/-- C3: `fetch_object` fails with `record_not_found` when the remote
`read_document` returns no document; when the remote returns a document it
yields exactly one synthetic `Revision` whose content is the remote document
full text, whose checksum is the md5 of that content, whose
`base_rev_id`/`rev_id` are the remote's reported values, and whose author is
the calling `user_id`. -/
theorem fetch_object_spec (env : Env) (tok : String) (user_id : String)
    (object_id : String) :
    (env.readDocument tok object_id = Except.ok none →
      fetch_object env tok user_id object_id =
        Except.error (FlowyError.recordNotFound "Remote does not have this document")) ∧
    (∀ doc : DocumentInfo, env.readDocument tok object_id = Except.ok (some doc) →
      fetch_object env tok user_id object_id =
        Except.ok [{ object_id := doc.doc_id, base_rev_id := doc.base_rev_id,
                     rev_id := doc.rev_id, delta_data := doc.text,
                     user_id := user_id, md5 := env.md5 doc.text }]) := by
  constructor
  · intro h
    simp [fetch_object, h]
  · intro doc h
    simp [fetch_object, h]

theorem make_editor_error_state (env : Env) (s : MgrState) (doc_id : String)
    (err : FlowyError) (s1 : MgrState)
    (h : make_editor env s doc_id = (Except.error err, s1)) : s1 = s := by
  unfold make_editor make_rev_manager at h
  cases ht : env.token with
  | error e0 =>
    rw [ht] at h
    simp only [Prod.mk.injEq, Except.error.injEq] at h
    exact h.2.symm
  | ok t =>
    rw [ht] at h
    cases hu : env.user_id with
    | error e0 =>
      rw [hu] at h
      simp only [Prod.mk.injEq, Except.error.injEq] at h
      exact h.2.symm
    | ok uid =>
      rw [hu] at h
      cases hi : env.editorInit doc_id with
      | error e0 =>
        rw [hi] at h
        simp only [Prod.mk.injEq, Except.error.injEq] at h
        exact h.2.symm
      | ok c =>
        rw [hi] at h
        simp at h

theorem make_editor_ok_state (env : Env) (s : MgrState) (doc_id : String)
    (e : Editor) (s1 : MgrState)
    (h : make_editor env s doc_id = (Except.ok e, s1)) :
    e.eid = s.nextId ∧
    s1.handlers = insertKey s.handlers doc_id e ∧
    s1.receivers = insertKey s.receivers doc_id e.eid := by
  unfold make_editor make_rev_manager at h
  cases ht : env.token with
  | error e0 => rw [ht] at h; simp at h
  | ok t =>
    rw [ht] at h
    cases hu : env.user_id with
    | error e0 => rw [hu] at h; simp at h
    | ok uid =>
      rw [hu] at h
      cases hi : env.editorInit doc_id with
      | error e0 => rw [hi] at h; simp at h
      | ok c =>
        rw [hi] at h
        simp only [Prod.mk.injEq, Except.ok.injEq] at h
        obtain ⟨he, hs⟩ := h
        subst he
        subst hs
        refine ⟨rfl, ?_, ?_⟩
        · rw [handlers_insert_handlers]
        · rw [handlers_insert_receivers]

/-- C1: for every `doc_id`, calling `open` twice without an intervening
`close` returns the same session identity: after a successful open the second
call observes the cached entry in the session registry and returns the very
same editor without invoking the factory — the state, including the fresh-id
counter and the event trace, is completely unchanged by the second call. -/
theorem open_twice_same_session (env : Env) (s : MgrState) (doc_id : String)
    (e : Editor) (s1 : MgrState)
    (h : open_document env s doc_id = (Except.ok e, s1)) :
    open_document env s1 doc_id = (Except.ok e, s1) := by
  have key : lookupKey s1.handlers doc_id = some e := by
    unfold open_document get_editor at h
    cases hg : DocumentEditorHandlers.get s doc_id with
    | some ed =>
      rw [hg] at h
      simp only [Prod.mk.injEq, Except.ok.injEq] at h
      obtain ⟨he, hs⟩ := h
      subst he
      subst hs
      exact (handlers_get_eq s doc_id).symm.trans hg
    | none =>
      rw [hg] at h
      cases hdb : env.db_pool with
      | error e0 => rw [hdb] at h; simp at h
      | ok u =>
        rw [hdb] at h
        rw [(make_editor_ok_state env s doc_id e s1 h).2.1]
        exact lookupKey_insertKey_self _ _ _
  unfold open_document get_editor
  rw [handlers_get_eq, key]

/-- C4: session construction is atomic with respect to registry visibility:
starting from a state with no entry for `doc_id` in either registry, a failed
`open` (token, revision-manager or editor construction failure) leaves the
state exactly as it was — in particular neither registry gains an entry for
`doc_id` — while a successful `open` leaves the editor registered in the
session registry and its receiver in the receiver registry. -/
theorem open_document_atomic (env : Env) (s : MgrState) (doc_id : String)
    (hh : lookupKey s.handlers doc_id = none)
    (hr : lookupKey s.receivers doc_id = none) :
    (∀ (err : FlowyError) (s1 : MgrState),
       open_document env s doc_id = (Except.error err, s1) →
       s1 = s ∧ lookupKey s1.handlers doc_id = none ∧
       lookupKey s1.receivers doc_id = none) ∧
    (∀ (e : Editor) (s1 : MgrState),
       open_document env s doc_id = (Except.ok e, s1) →
       lookupKey s1.handlers doc_id = some e ∧
       lookupKey s1.receivers doc_id = some e.eid) := by
  have hg : DocumentEditorHandlers.get s doc_id = none :=
    (handlers_get_eq s doc_id).trans hh
  constructor
  · intro err s1 h
    unfold open_document get_editor at h
    rw [hg] at h
    cases hdb : env.db_pool with
    | error e0 =>
      rw [hdb] at h
      simp only [Prod.mk.injEq, Except.error.injEq] at h
      exact ⟨h.2.symm, h.2 ▸ hh, h.2 ▸ hr⟩
    | ok u =>
      rw [hdb] at h
      have hs := make_editor_error_state env s doc_id err s1 h
      exact ⟨hs, hs ▸ hh, hs ▸ hr⟩
  · intro e s1 h
    unfold open_document get_editor at h
    rw [hg] at h
    cases hdb : env.db_pool with
    | error e0 => rw [hdb] at h; simp at h
    | ok u =>
      rw [hdb] at h
      obtain ⟨_, hhs, hrs⟩ := make_editor_ok_state env s doc_id e s1 h
      constructor
      · rw [hhs]; exact lookupKey_insertKey_self _ _ _
      · rw [hrs]; exact lookupKey_insertKey_self _ _ _

/-- C5: `receive_local_delta` returns a `DocumentDelta` whose `doc_id` equals
the input delta's `doc_id` and whose `delta_json` is the editor's full
document content after composing the input delta (that content is also what
the cached editor now holds); composing the empty delta returns the content
unchanged; an error raised by the composition step — like one raised while
opening the editor — propagates to the caller. -/
theorem receive_local_delta_spec (env : Env) (s : MgrState) (delta : DocumentDelta) :
    (∀ (editor : Editor) (s1 : MgrState) (c : String),
       get_editor env s delta.doc_id = (Except.ok editor, s1) →
       composeContent env editor.content delta.delta_json = Except.ok c →
       receive_local_delta env s delta =
         (Except.ok { doc_id := delta.doc_id, delta_json := c },
          updateEditorContent s1 delta.doc_id c)) ∧
    (∀ (editor : Editor) (s1 : MgrState),
       get_editor env s delta.doc_id = (Except.ok editor, s1) →
       delta.delta_json = "" →
       receive_local_delta env s delta =
         (Except.ok { doc_id := delta.doc_id, delta_json := editor.content },
          updateEditorContent s1 delta.doc_id editor.content)) ∧
    (∀ (editor : Editor) (s1 : MgrState) (err : FlowyError),
       get_editor env s delta.doc_id = (Except.ok editor, s1) →
       composeContent env editor.content delta.delta_json = Except.error err →
       receive_local_delta env s delta = (Except.error err, s1)) ∧
    (∀ (err : FlowyError) (s1 : MgrState),
       get_editor env s delta.doc_id = (Except.error err, s1) →
       receive_local_delta env s delta = (Except.error err, s1)) := by
  refine ⟨?_, ?_, ?_, ?_⟩
  · intro editor s1 c hget hcomp
    simp [receive_local_delta, hget, hcomp]
  · intro editor s1 hget hempty
    have hcomp : composeContent env editor.content delta.delta_json =
        Except.ok editor.content := by
      simp [composeContent, hempty]
    simp [receive_local_delta, hget, hcomp]
  · intro editor s1 err hget hcomp
    simp [receive_local_delta, hget, hcomp]
  · intro err s1 hget
    simp [receive_local_delta, hget]

/-- C8: after `close_document doc_id`, a `receive_ws_data` whose parsed
envelope names that `doc_id` only logs a missing-handler error and drops the
message: no receiver is invoked (no `receiverInvoked` event is added) and no
error surfaces. -/
theorem close_then_receive_ws_data_drops (env : Env) (s : MgrState) (doc_id : String)
    (data : List Nat) (d : WSData)
    (hp : env.parseWSData data = some d) (ho : d.object_id = doc_id) :
    receive_ws_data env (close_document s doc_id).2 data =
      logError (close_document s doc_id).2
        ("Cant find any source handler for " ++ d.object_id) ∧
    (∀ rid : Nat,
       Event.receiverInvoked rid ∈
         (receive_ws_data env (close_document s doc_id).2 data).events →
       Event.receiverInvoked rid ∈ (close_document s doc_id).2.events) := by
  have hrec : lookupKey (close_document s doc_id).2.receivers d.object_id = none := by
    rw [ho]
    cases hg : lookupKey s.handlers doc_id with
    | some e =>
      rw [close_document_eq_of_lookup_some s doc_id e hg]
      exact lookupKey_removeKey_self _ _
    | none =>
      rw [close_document_eq_of_lookup_none s doc_id hg]
      exact lookupKey_removeKey_self _ _
  have heq : receive_ws_data env (close_document s doc_id).2 data =
      logError (close_document s doc_id).2
        ("Cant find any source handler for " ++ d.object_id) := by
    simp [receive_ws_data, hp, hrec]
  refine ⟨heq, ?_⟩
  intro rid hmem
  rw [heq] at hmem
  simp only [logError, recordEvent, List.mem_cons] at hmem
  rcases hmem with hbad | hok
  · exact Event.noConfusion hbad
  · exact hok

/-- C9: `DocumentEditorHandlers::insert` on a `doc_id` that already has an
entry replaces the existing entry (last write wins): the lookup afterwards
yields the new editor, the only trace effect is a warning (in particular the
displaced session's shutdown hook is not invoked and nothing fails), the
receiver registry is untouched, and every other key's entry is unchanged. -/
theorem handlers_insert_replaces (s : MgrState) (doc_id : String) (doc old : Editor)
    (h : lookupKey s.handlers doc_id = some old) :
    lookupKey (DocumentEditorHandlers.insert s doc_id doc).handlers doc_id = some doc ∧
    (DocumentEditorHandlers.insert s doc_id doc).events =
      Event.logWarn ("Doc:" ++ doc_id ++ " already exists in cache") :: s.events ∧
    (DocumentEditorHandlers.insert s doc_id doc).receivers = s.receivers ∧
    (∀ k : String, k ≠ doc_id →
       lookupKey (DocumentEditorHandlers.insert s doc_id doc).handlers k =
         lookupKey s.handlers k) := by
  have hc : DocumentEditorHandlers.contains s doc_id = true := by
    unfold DocumentEditorHandlers.contains
    rw [h]
    rfl
  refine ⟨?_, ?_, ?_, ?_⟩
  · rw [handlers_insert_handlers]
    exact lookupKey_insertKey_self _ _ _
  · unfold DocumentEditorHandlers.insert
    rw [hc]
    simp [logWarn, recordEvent]
  · exact handlers_insert_receivers s doc_id doc
  · intro k hk
    rw [handlers_insert_handlers]
    exact lookupKey_insertKey_ne _ _ _ _ hk

/-- C10: `reset_with_revisions` operates on a freshly constructed revision
manager, never consulting the cached session: both registries (and with them
every open session's editor) and the fresh-id counter are left unchanged in
every outcome; it fails exactly when the storage handle (`db_pool`) or the
`user_id` is unavailable, and otherwise its result is exactly the result of
the revision-manager reset. -/
theorem reset_with_revisions_spec (env : Env) (s : MgrState) (doc_id : String)
    (revisions : List Revision) :
    (reset_with_revisions env s doc_id revisions).2.handlers = s.handlers ∧
    (reset_with_revisions env s doc_id revisions).2.receivers = s.receivers ∧
    (reset_with_revisions env s doc_id revisions).2.nextId = s.nextId ∧
    (∀ err : FlowyError, env.db_pool = Except.error err →
       reset_with_revisions env s doc_id revisions = (Except.error err, s)) ∧
    (∀ err : FlowyError, env.db_pool = Except.ok () →
       env.user_id = Except.error err →
       reset_with_revisions env s doc_id revisions = (Except.error err, s)) ∧
    (∀ uid : String, env.db_pool = Except.ok () → env.user_id = Except.ok uid →
       (reset_with_revisions env s doc_id revisions).1 =
         env.resetObject uid doc_id revisions) := by
  refine ⟨?_, ?_, ?_, ?_, ?_, ?_⟩
  · unfold reset_with_revisions make_rev_manager
    cases hdb : env.db_pool with
    | error e0 => rfl
    | ok u =>
      cases hu : env.user_id with
      | error e0 => rfl
      | ok uid =>
        cases hres : env.resetObject uid doc_id revisions with
        | error e0 => simp [hres, recordEvent]
        | ok v => simp [hres, recordEvent]
  · unfold reset_with_revisions make_rev_manager
    cases hdb : env.db_pool with
    | error e0 => rfl
    | ok u =>
      cases hu : env.user_id with
      | error e0 => rfl
      | ok uid =>
        cases hres : env.resetObject uid doc_id revisions with
        | error e0 => simp [hres, recordEvent]
        | ok v => simp [hres, recordEvent]
  · unfold reset_with_revisions make_rev_manager
    cases hdb : env.db_pool with
    | error e0 => rfl
    | ok u =>
      cases hu : env.user_id with
      | error e0 => rfl
      | ok uid =>
        cases hres : env.resetObject uid doc_id revisions with
        | error e0 => simp [hres, recordEvent]
        | ok v => simp [hres, recordEvent]
  · intro err hdb
    simp [reset_with_revisions, hdb]
  · intro err hdb hu
    simp [reset_with_revisions, make_rev_manager, hdb, hu]
  · intro uid hdb hu
    cases hres : env.resetObject uid doc_id revisions with
    | error e0 => simp [reset_with_revisions, make_rev_manager, hdb, hu, hres]
    | ok v => simp [reset_with_revisions, make_rev_manager, hdb, hu, hres]

/-! Concrete sample collaborators and states used to witness the theorems
above on executable inputs. -/

def sampleEnv : Env where
  user_id := Except.ok "user-1"
  token := Except.ok "token-1"
  db_pool := Except.ok ()
  readDocument := fun _ oid =>
    if oid = "doc-9" then Except.ok none
    else Except.ok (some { doc_id := oid, base_rev_id := 0, rev_id := 1, text := "hello" })
  parseWSData := fun data =>
    if data = [1] then some { object_id := "doc-1", ty := 0 } else none
  md5 := fun str => str ++ "-md5"
  editorInit := fun _ => Except.ok "initial"
  recvData := fun _ _ => Except.ok ()
  composeBehavior := fun c d => Except.ok (c ++ d)
  resetObject := fun _ _ _ => Except.ok ()

def emptyState : MgrState where
  handlers := []
  receivers := []
  nextId := 0
  events := []

def sampleEditor : Editor where
  eid := 0
  content := "hello"

def sampleState : MgrState where
  handlers := [("doc-1", sampleEditor)]
  receivers := [("doc-1", 0)]
  nextId := 1
  events := []

def newEditor : Editor where
  eid := 5
  content := "new"

def openedState : MgrState := (open_document sampleEnv emptyState "doc-1").2

theorem open_twice_same_session_witness :
    open_document sampleEnv openedState "doc-1" =
      (Except.ok { eid := 0, content := "initial" }, openedState) :=
  open_twice_same_session sampleEnv emptyState "doc-1"
    { eid := 0, content := "initial" } openedState rfl

theorem receive_ws_data_never_propagates_witness :
    receive_ws_data sampleEnv sampleState [2] =
      logError sampleState "Document ws data parser failed" :=
  (receive_ws_data_never_propagates sampleEnv sampleState [2]).2.2.1 rfl

theorem fetch_object_spec_witness :
    fetch_object sampleEnv "token-1" "user-1" "doc-9" =
      Except.error (FlowyError.recordNotFound "Remote does not have this document") :=
  (fetch_object_spec sampleEnv "token-1" "user-1" "doc-9").1 rfl

theorem open_document_atomic_witness :
    lookupKey (open_document sampleEnv emptyState "doc-1").2.handlers "doc-1" =
      some { eid := 0, content := "initial" } ∧
    lookupKey (open_document sampleEnv emptyState "doc-1").2.receivers "doc-1" =
      some 0 :=
  (open_document_atomic sampleEnv emptyState "doc-1" rfl rfl).2
    { eid := 0, content := "initial" } (open_document sampleEnv emptyState "doc-1").2 rfl

theorem receive_local_delta_spec_witness :
    receive_local_delta sampleEnv sampleState { doc_id := "doc-1", delta_json := "" } =
      (Except.ok { doc_id := "doc-1", delta_json := "hello" },
       updateEditorContent sampleState "doc-1" "hello") :=
  (receive_local_delta_spec sampleEnv sampleState
      { doc_id := "doc-1", delta_json := "" }).2.1 sampleEditor sampleState rfl rfl

theorem close_document_spec_witness :
    (close_document sampleState "doc-1").2.events =
      Event.editorStopped 0 :: sampleState.events :=
  (close_document_spec sampleState "doc-1").2.2.2.1 sampleEditor rfl

theorem close_then_receive_ws_data_drops_witness :
    receive_ws_data sampleEnv (close_document sampleState "doc-1").2 [1] =
      logError (close_document sampleState "doc-1").2
        ("Cant find any source handler for " ++ "doc-1") :=
  (close_then_receive_ws_data_drops sampleEnv sampleState "doc-1" [1]
    { object_id := "doc-1", ty := 0 } rfl rfl).1

theorem handlers_insert_replaces_witness :
    lookupKey (DocumentEditorHandlers.insert sampleState "doc-1" newEditor).handlers
        "doc-1" = some newEditor ∧
    (DocumentEditorHandlers.insert sampleState "doc-1" newEditor).events =
      Event.logWarn ("Doc:" ++ "doc-1" ++ " already exists in cache") ::
        sampleState.events :=
  ⟨(handlers_insert_replaces sampleState "doc-1" newEditor sampleEditor rfl).1,
   (handlers_insert_replaces sampleState "doc-1" newEditor sampleEditor rfl).2.1⟩

theorem reset_with_revisions_spec_witness :
    (reset_with_revisions sampleEnv sampleState "doc-1" []).1 =
      sampleEnv.resetObject "user-1" "doc-1" [] :=
  (reset_with_revisions_spec sampleEnv sampleState "doc-1" []).2.2.2.2.2 "user-1" rfl rfl

end FlowyDoc
